import Mathlib

/-!
Verification of the nzr-audio-enhancer processing pipeline.

Shallow embedding of the Python sources under `src/`:
* `src/models/config.py`   — `QualityLevel`, `EnhancementConfig` (+ presets, validation)
* `src/models/metrics.py`  — `QualityMetrics` and its quality predicates
* `src/models/stage.py`    — `ProcessingStage`
* `src/models/result.py`   — `ProcessingResult`
* `src/services/enhancer.py` — `enhance_audio`, `select_config`
* `src/services/dynamics.py` — compressor gain curve, loudness normalization, soft clip
* `src/services/spectral.py` — EQ filters and their Nyquist guards
* `src/services/analyzer.py` — `estimate_snr`

Python floats are modelled as rationals in the discrete data model
(`EnhancementConfig`, `QualityMetrics`) and as real numbers in the DSP
functions, where logarithms, square roots and hyperbolic tangents appear.
External library calls (scipy filtfilt/butter, the noisereduce and
DeepFilterNet backends, soundfile I/O) are abstracted as explicit function
parameters; everything written in this repository is translated directly.
-/

namespace NzrAudio

/- ===================== src/models/config.py ===================== -/

/-- `QualityLevel` enum (config.py lines 8-15). -/
inductive QualityLevel where
  | auto
  | minimal
  | light
  | standard
  | aggressive
deriving DecidableEq, Repr

/-- `EnhancementConfig` dataclass fields with their defaults
(config.py lines 18-38).  Floats become rationals. -/
structure EnhancementConfig where
  noise_reduction_strength : ℚ := mkRat 1 2
  eq_enabled : Bool := true
  dynamics_enabled : Bool := true
  ai_enhancement_enabled : Bool := true
  preserve_dynamics : Bool := true
  target_loudness_lufs : ℚ := -14
  quality_level : QualityLevel := QualityLevel.auto
deriving DecidableEq, Repr

/-- `EnhancementConfig.__post_init__` validation (config.py lines 40-45):
construction raises `ValueError` when `noise_reduction_strength` is outside
[0, 1] or `target_loudness_lufs` is outside [-60, 0]. -/
def mkEnhancementConfig (nrs : ℚ) (eq dyn ai pd : Bool) (lufs : ℚ)
    (ql : QualityLevel) : Except String EnhancementConfig :=
  if ¬ (0 ≤ nrs ∧ nrs ≤ 1) then
    Except.error "noise_reduction_strength must be between 0.0 and 1.0"
  else if ¬ (-60 ≤ lufs ∧ lufs ≤ 0) then
    Except.error "target_loudness_lufs must be between -60.0 and 0.0"
  else
    Except.ok { noise_reduction_strength := nrs, eq_enabled := eq,
                dynamics_enabled := dyn, ai_enhancement_enabled := ai,
                preserve_dynamics := pd, target_loudness_lufs := lufs,
                quality_level := ql }

/-- `EnhancementConfig.minimal()` preset (config.py lines 47-61). -/
def EnhancementConfig.minimal : EnhancementConfig :=
  { noise_reduction_strength := mkRat 1 10, eq_enabled := false,
    dynamics_enabled := false, ai_enhancement_enabled := false,
    preserve_dynamics := true, target_loudness_lufs := -14,
    quality_level := QualityLevel.minimal }

/-- `EnhancementConfig.light()` preset (config.py lines 63-73). -/
def EnhancementConfig.light : EnhancementConfig :=
  { noise_reduction_strength := mkRat 1 5, eq_enabled := true,
    dynamics_enabled := true, ai_enhancement_enabled := false,
    preserve_dynamics := true, target_loudness_lufs := -14,
    quality_level := QualityLevel.light }

/-- `EnhancementConfig.standard()` preset (config.py lines 75-85). -/
def EnhancementConfig.standard : EnhancementConfig :=
  { noise_reduction_strength := mkRat 1 2, eq_enabled := true,
    dynamics_enabled := true, ai_enhancement_enabled := true,
    preserve_dynamics := true, target_loudness_lufs := -14,
    quality_level := QualityLevel.standard }

/-- `EnhancementConfig.aggressive()` preset (config.py lines 87-97). -/
def EnhancementConfig.aggressive : EnhancementConfig :=
  { noise_reduction_strength := mkRat 4 5, eq_enabled := true,
    dynamics_enabled := true, ai_enhancement_enabled := true,
    preserve_dynamics := false, target_loudness_lufs := -14,
    quality_level := QualityLevel.aggressive }

/- ===================== src/models/metrics.py ===================== -/

/-- `QualityMetrics` dataclass (metrics.py lines 6-24).  The source fields
`clipping_ratio` and `silence_ratio` are named `clipping_frac` and
`silence_frac` here. -/
structure QualityMetrics where
  snr_db : ℚ
  spectral_flatness : ℚ
  dynamic_range_db : ℚ
  clipping_frac : ℚ
  silence_frac : ℚ
  quality_score : ℚ
deriving DecidableEq, Repr

/-- `QualityMetrics.needs_ai_enhancement` (metrics.py lines 26-29):
`quality_score < 0.5 or snr_db < 20`. -/
def QualityMetrics.needs_ai_enhancement (m : QualityMetrics) : Prop :=
  m.quality_score < mkRat 1 2 ∨ m.snr_db < 20

instance (m : QualityMetrics) : Decidable m.needs_ai_enhancement :=
  inferInstanceAs (Decidable (m.quality_score < mkRat 1 2 ∨ m.snr_db < 20))

/-- `QualityMetrics.is_high_quality` (metrics.py lines 31-34):
`quality_score >= 0.7`. -/
def QualityMetrics.is_high_quality (m : QualityMetrics) : Prop :=
  mkRat 7 10 ≤ m.quality_score

instance (m : QualityMetrics) : Decidable m.is_high_quality :=
  inferInstanceAs (Decidable (mkRat 7 10 ≤ m.quality_score))

/-- `QualityMetrics.is_excellent_quality` (metrics.py lines 36-39):
`quality_score >= 0.8`. -/
def QualityMetrics.is_excellent_quality (m : QualityMetrics) : Prop :=
  mkRat 8 10 ≤ m.quality_score

instance (m : QualityMetrics) : Decidable m.is_excellent_quality :=
  inferInstanceAs (Decidable (mkRat 8 10 ≤ m.quality_score))

/- ===================== src/services/enhancer.py : select_config ===== -/

/-- `select_config` (enhancer.py lines 223-263): pick a preset from the
quality metrics, then reapply the user overrides in source order. -/
def select_config (metrics : QualityMetrics) (user_config : EnhancementConfig) :
    EnhancementConfig :=
  let config :=
    if metrics.is_excellent_quality then EnhancementConfig.minimal
    else if metrics.is_high_quality then EnhancementConfig.light
    else if metrics.needs_ai_enhancement then EnhancementConfig.aggressive
    else EnhancementConfig.standard
  let config :=
    if user_config.target_loudness_lufs ≠ -14 then
      { config with target_loudness_lufs := user_config.target_loudness_lufs }
    else config
  let config :=
    if user_config.ai_enhancement_enabled = false then
      { config with ai_enhancement_enabled := false }
    else config
  let config :=
    if user_config.preserve_dynamics = true then
      { config with preserve_dynamics := true }
    else config
  config

/-- Modelled from the claim wording for C2: the preset chosen in priority
order (score ≥ 0.8 → minimal; else score ≥ 0.7 → light; else score < 0.5 or
SNR < 20 → aggressive; else standard). -/
def claimPreset (m : QualityMetrics) : EnhancementConfig :=
  if mkRat 8 10 ≤ m.quality_score then EnhancementConfig.minimal
  else if mkRat 7 10 ≤ m.quality_score then EnhancementConfig.light
  else if m.quality_score < mkRat 1 2 ∨ m.snr_db < 20 then EnhancementConfig.aggressive
  else EnhancementConfig.standard

/-- Modelled from the claim wording for C2: on top of the chosen preset,
a non-default user loudness target replaces the preset target, a user
AI-disable forces `ai_enhancement_enabled` off, and a user
`preserve_dynamics` request forces preservation on (never off). -/
def claimOverrides (user : EnhancementConfig) (base : EnhancementConfig) :
    EnhancementConfig :=
  let withLufs :=
    if user.target_loudness_lufs ≠ -14 then
      { base with target_loudness_lufs := user.target_loudness_lufs }
    else base
  let withAi :=
    if user.ai_enhancement_enabled = false then
      { withLufs with ai_enhancement_enabled := false }
    else withLufs
  if user.preserve_dynamics = true then
    { withAi with preserve_dynamics := true }
  else withAi

/- ===================== src/models/stage.py ===================== -/

/-- `ProcessingStage` (stage.py lines 7-23).  The `parameters : dict[str, Any]`
payload and the wall-clock `duration_seconds` are not translatable and are
elided; `name`, `enabled` and `method` are kept. -/
structure ProcessingStage where
  name : String
  enabled : Bool
  method : String := ""
deriving DecidableEq, Repr

/-- `ProcessingStage.skipped` (stage.py lines 25-28). -/
def ProcessingStage.skipped (n : String) : ProcessingStage :=
  { name := n, enabled := false, method := "skipped" }

/-- `ProcessingStage.completed` (stage.py lines 30-55), with the elided
duration/parameters dropped. -/
def ProcessingStage.completed (n m : String) : ProcessingStage :=
  { name := n, enabled := true, method := m }

/- ===================== src/models/audio_file.py ===================== -/

/-- `AudioFile` dataclass (audio_file.py lines 10-30).  The sample buffer
type is a parameter `α` (the orchestrator threads buffers through the
stage collaborators without inspecting them); paths are strings. -/
structure AudioFile (α : Type) where
  path : String
  format : String
  sample_rate : ℕ
  bit_depth : ℕ
  channels : ℕ
  duration : ℚ
  samples : α

/- ===================== src/models/result.py ===================== -/

/-- `ProcessingResult` (result.py lines 11-33), minus the wall-clock
`duration_seconds`. -/
structure ProcessingResult (α : Type) where
  success : Bool
  input_file : AudioFile α
  output_file : Option (AudioFile α) := none
  input_metrics : Option QualityMetrics := none
  output_metrics : Option QualityMetrics := none
  processing_stages : List ProcessingStage := []
  error_message : Option String := none

/- ===================== src/services/enhancer.py : enhance_audio ===== -/

/-- The collaborators `enhance_audio` calls.  Each may raise (modelled as
`Except.error` carrying `str(e)`): `analyze_quality` (analyzer.py),
`reduce_noise_with_fallback` (noise_reduction.py), `apply_eq`
(spectral.py), `compress_dynamics` / `normalize_loudness` (dynamics.py),
`save_audio` / `generate_output_path` (exporter.py).  `sampleLen` is
`len(samples)` for the output descriptor's duration. -/
structure PipelineEnv (α : Type) where
  analyze_quality : AudioFile α → Except String QualityMetrics
  reduce_noise_with_fallback : AudioFile α → ℚ → Bool → Except String (α × String)
  apply_eq : α → ℕ → EnhancementConfig → Except String α
  compress_dynamics : α → EnhancementConfig → Except String α
  normalize_loudness : α → ℚ → ℕ → Except String α
  save_audio : AudioFile α → String → Except String Unit
  generate_output_path : String → String
  sampleLen : α → ℕ

/-- The failure result built by the `except` handler of `enhance_audio`
(enhancer.py lines 211-220). -/
def failRes {α : Type} (audio_file : AudioFile α)
    (input_metrics : Option QualityMetrics) (stages : List ProcessingStage)
    (e : String) : ProcessingResult α :=
  { success := false, input_file := audio_file, input_metrics := input_metrics,
    processing_stages := stages, error_message := some e }

/-- Stage 3 of `enhance_audio` (enhancer.py lines 70-107): noise reduction
when `noise_reduction_strength > 0`, else a skipped record.  The temporary
`AudioFile` wrapper and the `use_ai` decision are from lines 74-95. -/
def noiseStage {α : Type} (env : PipelineEnv α) (audio_file : AudioFile α)
    (config : EnhancementConfig) (input_metrics : QualityMetrics)
    (samples : α) : Except String (α × ProcessingStage) :=
  if 0 < config.noise_reduction_strength then
    let temp_audio : AudioFile α := { audio_file with samples := samples }
    let use_ai :=
      config.ai_enhancement_enabled = true ∧ input_metrics.needs_ai_enhancement
    match env.reduce_noise_with_fallback temp_audio
        config.noise_reduction_strength (decide use_ai) with
    | Except.error e => Except.error e
    | Except.ok (s, nr_method) =>
        Except.ok (s, ProcessingStage.completed "noise_reduction" nr_method)
  else
    Except.ok (samples, ProcessingStage.skipped "noise_reduction")

/-- Stage 4 of `enhance_audio` (enhancer.py lines 109-120): spectral EQ
when `eq_enabled`, else a skipped record. -/
def eqStage {α : Type} (env : PipelineEnv α) (config : EnhancementConfig)
    (sr : ℕ) (samples : α) : Except String (α × ProcessingStage) :=
  if config.eq_enabled = true then
    match env.apply_eq samples sr config with
    | Except.error e => Except.error e
    | Except.ok s =>
        Except.ok (s, ProcessingStage.completed "spectral" "scipy_filters")
  else
    Except.ok (samples, ProcessingStage.skipped "spectral")

/-- Stage 5 of `enhance_audio` (enhancer.py lines 122-149): compression
then loudness normalization when `dynamics_enabled`, else a skipped
record. -/
def dynamicsStage {α : Type} (env : PipelineEnv α) (config : EnhancementConfig)
    (sr : ℕ) (samples : α) : Except String (α × ProcessingStage) :=
  if config.dynamics_enabled = true then
    match env.compress_dynamics samples config with
    | Except.error e => Except.error e
    | Except.ok s2 =>
        match env.normalize_loudness s2 config.target_loudness_lufs sr with
        | Except.error e => Except.error e
        | Except.ok s3 =>
            Except.ok (s3,
              ProcessingStage.completed "dynamics" "compression_normalization")
  else
    Except.ok (samples, ProcessingStage.skipped "dynamics")

/-- Stages 6 and 7 of `enhance_audio` (enhancer.py lines 162-209):
re-analyze the output buffer (`validation`), resolve the output path,
save (`export`), and assemble the success `ProcessingResult`; any
exception still lands in the handler of lines 211-220. -/
def finishRun {α : Type} (env : PipelineEnv α) (audio_file : AudioFile α)
    (input_metrics : QualityMetrics) (s4 : List ProcessingStage)
    (output_audio : AudioFile α) (output_path0 : Option String) :
    ProcessingResult α :=
  match env.analyze_quality output_audio with
  | Except.error e => failRes audio_file (some input_metrics) s4 e
  | Except.ok output_metrics =>
    let s5 := s4 ++ [ProcessingStage.completed "validation" "quality_check"]
    let output_path :=
      match output_path0 with
      | none => env.generate_output_path audio_file.path
      | some p => p
    match env.save_audio output_audio output_path with
    | Except.error e => failRes audio_file (some input_metrics) s5 e
    | Except.ok _ =>
      let output_audio2 := { output_audio with path := output_path }
      let s6 := s5 ++ [ProcessingStage.completed "export" "soundfile"]
      { success := true, input_file := audio_file,
        output_file := some output_audio2,
        input_metrics := some input_metrics,
        output_metrics := some output_metrics,
        processing_stages := s6, error_message := none }

/-- `enhance_audio` (enhancer.py lines 24-220): the full pipeline run.
Any stage exception short-circuits to the `except` handler, which returns
a failure `ProcessingResult` with the stages appended so far and the input
metrics if analysis had completed.  Note: configuration selection
(lines 62-64) appends no stage record. -/
def enhance_audio {α : Type} (env : PipelineEnv α) (audio_file : AudioFile α)
    (config0 : EnhancementConfig) (output_path0 : Option String) :
    ProcessingResult α :=
  match env.analyze_quality audio_file with
  | Except.error e => failRes audio_file none [] e
  | Except.ok input_metrics =>
    let s1 := [ProcessingStage.completed "analysis" "librosa"]
    let config :=
      if config0.quality_level = QualityLevel.auto then
        select_config input_metrics config0
      else config0
    let sr := audio_file.sample_rate
    match noiseStage env audio_file config input_metrics audio_file.samples with
    | Except.error e => failRes audio_file (some input_metrics) s1 e
    | Except.ok (samples2, st2) =>
      let s2 := s1 ++ [st2]
      match eqStage env config sr samples2 with
      | Except.error e => failRes audio_file (some input_metrics) s2 e
      | Except.ok (samples3, st3) =>
        let s3 := s2 ++ [st3]
        match dynamicsStage env config sr samples3 with
        | Except.error e => failRes audio_file (some input_metrics) s3 e
        | Except.ok (samples4, st4) =>
          let s4 := s3 ++ [st4]
          let output_audio : AudioFile α :=
            { path := audio_file.path, format := "wav", sample_rate := sr,
              bit_depth := max audio_file.bit_depth 24,
              channels := audio_file.channels,
              duration := (env.sampleLen samples4 : ℚ) / (sr : ℚ),
              samples := samples4 }
          finishRun env audio_file input_metrics s4 output_audio output_path0

/-- The fixed phase order of a completed run (enhancer.py appends exactly
these names: lines 55, 97/107, 113/120, 139/149, 165, 192). -/
def pipelinePhases : List String :=
  ["analysis", "noise_reduction", "spectral", "dynamics", "validation", "export"]

/-- The stage names recorded in a result, in order. -/
def stageNames {α : Type} (r : ProcessingResult α) : List String :=
  r.processing_stages.map ProcessingStage.name

/-- An error string one of the collaborators can raise. -/
def PipelineEnv.raises {α : Type} (env : PipelineEnv α) (e : String) : Prop :=
  (∃ af, env.analyze_quality af = Except.error e) ∨
  (∃ af q b, env.reduce_noise_with_fallback af q b = Except.error e) ∨
  (∃ s n c, env.apply_eq s n c = Except.error e) ∨
  (∃ s c, env.compress_dynamics s c = Except.error e) ∨
  (∃ s q n, env.normalize_loudness s q n = Except.error e) ∨
  (∃ af pth, env.save_audio af pth = Except.error e)

/-- All exception messages of the collaborators are non-empty (true of the
repository's `EnhancerError` hierarchy, whose messages are non-empty
formatted strings, errors.py lines 4-100). -/
def PipelineEnv.errorsNonempty {α : Type} (env : PipelineEnv α) : Prop :=
  ∀ e, env.raises e → e ≠ ""

/- ===== Concrete runs used by the counterexample and the witnesses ===== -/

/-- Metrics of a high-quality input (score 0.9, SNR 25 dB). -/
def demoMetrics : QualityMetrics :=
  { snr_db := 25, spectral_flatness := mkRat 1 10, dynamic_range_db := 12,
    clipping_frac := 0, silence_frac := 0, quality_score := mkRat 9 10 }

/-- A pipeline environment in which every collaborator succeeds. -/
def okEnv : PipelineEnv Unit :=
  { analyze_quality := fun _ => Except.ok demoMetrics,
    reduce_noise_with_fallback := fun _ _ _ => Except.ok ((), "spectral_gating"),
    apply_eq := fun s _ _ => Except.ok s,
    compress_dynamics := fun s _ => Except.ok s,
    normalize_loudness := fun s _ _ => Except.ok s,
    save_audio := fun _ _ => Except.ok (),
    generate_output_path := fun pth => pth ++ "_enhanced.wav",
    sampleLen := fun _ => 132300 }

/-- `okEnv` except that the EQ stage raises, as `ProcessingFailedError`
would. -/
def failEnvEq : PipelineEnv Unit :=
  { okEnv with apply_eq := fun _ _ _ =>
      Except.error "Processing failed during spectral" }

/-- A 3-second 44.1 kHz mono 16-bit input descriptor. -/
def demoAudio : AudioFile Unit :=
  { path := "/tmp/song.wav", format := "wav", sample_rate := 44100,
    bit_depth := 16, channels := 1, duration := 3, samples := () }

/-- The all-defaults user configuration (quality level auto). -/
def demoConfigAuto : EnhancementConfig := {}

/- ===================== src/services/dynamics.py ===================== -/

/-- A numpy sample buffer: 1-D (mono) or 2-D with one inner list per
frame, holding that frame's channel values. -/
inductive SampleArray where
  | mono (xs : List ℝ)
  | multi (rows : List (List ℝ))

/-- Elementwise map over a sample buffer (numpy broadcasting). -/
def mapSamples (f : ℝ → ℝ) : SampleArray → SampleArray
  | SampleArray.mono xs => SampleArray.mono (xs.map f)
  | SampleArray.multi rows => SampleArray.multi (rows.map (fun row => row.map f))

/-- All samples of a buffer, flattened. -/
def SampleArray.toFlatList : SampleArray → List ℝ
  | SampleArray.mono xs => xs
  | SampleArray.multi rows => rows.flatten

/-- `np.mean(samples, axis=1)` for 2-D input, identity for 1-D
(dynamics.py lines 246-250). -/
noncomputable def monoMix : SampleArray → List ℝ
  | SampleArray.mono xs => xs
  | SampleArray.multi rows => rows.map (fun row => row.sum / row.length)

/-- `np.sqrt(np.mean(mono**2))` (dynamics.py line 252). -/
noncomputable def listRms (xs : List ℝ) : ℝ :=
  Real.sqrt ((xs.map (fun x => x ^ 2)).sum / xs.length)

/-- `_estimate_loudness_lufs` (dynamics.py lines 234-261): `None` when the
RMS of the mono mixdown is below 1e-10, else `20*log10(rms) - 0.691`. -/
noncomputable def estimate_loudness_lufs (samples : SampleArray) : Option ℝ :=
  let rms := listRms (monoMix samples)
  if rms < 1e-10 then none
  else some (20 * Real.logb 10 rms - 0.691)

/-- Per-sample core of `_soft_clip` (dynamics.py lines 264-282):
tanh-based soft clipping above `threshold`. -/
noncomputable def soft_clip_sample (threshold x : ℝ) : ℝ :=
  if |x| ≤ threshold then x
  else Real.sign x *
    (threshold + (1 - threshold) * Real.tanh ((|x| - threshold) / (1 - threshold)))

/-- `_soft_clip` over a whole buffer (dynamics.py lines 264-282, applied
elementwise by `np.where`). -/
noncomputable def soft_clip (samples : SampleArray) (threshold : ℝ) :
    SampleArray :=
  mapSamples (soft_clip_sample threshold) samples

/-- `np.clip(x, lo, hi)`. -/
noncomputable def clipReal (x lo hi : ℝ) : ℝ := max lo (min x hi)

/-- `normalize_loudness` (dynamics.py lines 54-92): the `None` guard
returns the input unchanged (the `np.isinf` guard can never fire over the
reals, since the estimated loudness of a non-silent buffer is finite);
otherwise the gain toward the target is clipped to ±20 dB, applied,
and the result soft-limited at 0.95. -/
noncomputable def normalize_loudness (samples : SampleArray)
    (target_lufs : ℝ) (sr : ℕ) : SampleArray :=
  match estimate_loudness_lufs samples with
  | none => samples
  | some current_lufs =>
    let gain_db := clipReal (target_lufs - current_lufs) (-20) 20
    let gain_linear := (10 : ℝ) ^ (gain_db / 20)
    soft_clip (mapSamples (fun x => x * gain_linear) samples) (95 / 100)

/-- dB-domain soft-knee curve of `_calculate_gain_reduction`
(dynamics.py lines 213-226): flat below `threshold - knee/2`, ratio-scaled
above `threshold + knee/2`, and the source's knee-region blend in between
(`r` is the compression ratio). -/
noncomputable def gainOutputDb (level_db threshold_db r knee_db : ℝ) : ℝ :=
  if level_db ≤ threshold_db - knee_db / 2 then
    level_db
  else if level_db ≥ threshold_db + knee_db / 2 then
    threshold_db + (level_db - threshold_db) / r
  else
    let knee_factor := (level_db - threshold_db + knee_db / 2) / knee_db
    let compression_amount := knee_factor * knee_factor * (1 / r - 1) / 2
    level_db + compression_amount * (level_db - threshold_db + knee_db / 2)

/-- `_calculate_gain_reduction` (dynamics.py lines 188-231): per envelope
sample, convert to dB (flooring at 1e-10), run the knee curve, and convert
the dB gain change back to linear. -/
noncomputable def calculate_gain_reduction (envelope : List ℝ)
    (threshold r knee_db : ℝ) : List ℝ :=
  envelope.map fun e =>
    let level_db := 20 * Real.logb 10 (max e 1e-10)
    let threshold_db := 20 * Real.logb 10 (max threshold 1e-10)
    (10 : ℝ) ^ ((gainOutputDb level_db threshold_db r knee_db - level_db) / 20)

/- ===================== src/services/spectral.py ===================== -/

/-- The scipy primitives used by the filter bank: `signal.filtfilt`
(zero-phase IIR filtering of one channel) and `signal.butter` (Butterworth
design, returning numerator and denominator coefficients).  Both are
external library code and enter as parameters. -/
structure FilterPrimitives where
  filtfilt : List ℝ → List ℝ → List ℝ → List ℝ
  butter : ℕ → ℝ → List ℝ × List ℝ

/-- `_apply_filter` (spectral.py lines 216-233): filter a mono buffer
directly, a 2-D buffer channel by channel. -/
def apply_filter (prim : FilterPrimitives) (b a : List ℝ) :
    SampleArray → SampleArray
  | SampleArray.mono xs => SampleArray.mono (prim.filtfilt b a xs)
  | SampleArray.multi rows =>
      SampleArray.multi ((rows.transpose.map (prim.filtfilt b a)).transpose)

/-- `_highpass_filter` (spectral.py lines 70-88): no-op at or above
Nyquist, else a 2nd-order Butterworth high-pass. -/
noncomputable def highpass_filter (prim : FilterPrimitives)
    (samples : SampleArray) (sr : ℕ) (cutoff : ℝ) : SampleArray :=
  let nyquist := (sr : ℝ) / 2
  if cutoff ≥ nyquist then samples
  else
    let normalized_cutoff := cutoff / nyquist
    let ba := prim.butter 2 normalized_cutoff
    apply_filter prim ba.1 ba.2 samples

/-- `_low_shelf_filter` (spectral.py lines 91-129): no-op at or above
Nyquist, else the RBJ low-shelf biquad designed in the source. -/
noncomputable def low_shelf_filter (prim : FilterPrimitives)
    (samples : SampleArray) (sr : ℕ) (cutoff gain_db : ℝ) : SampleArray :=
  let nyquist := (sr : ℝ) / 2
  if cutoff ≥ nyquist then samples
  else
    let A := (10 : ℝ) ^ (gain_db / 40)
    let w0 := 2 * Real.pi * cutoff / (sr : ℝ)
    let cos_w0 := Real.cos w0
    let sin_w0 := Real.sin w0
    let alpha := sin_w0 / 2 * Real.sqrt 2
    let b0 := A * ((A + 1) - (A - 1) * cos_w0 + 2 * Real.sqrt A * alpha)
    let b1 := 2 * A * ((A - 1) - (A + 1) * cos_w0)
    let b2 := A * ((A + 1) - (A - 1) * cos_w0 - 2 * Real.sqrt A * alpha)
    let a0 := (A + 1) + (A - 1) * cos_w0 + 2 * Real.sqrt A * alpha
    let a1 := -2 * ((A - 1) + (A + 1) * cos_w0)
    let a2 := (A + 1) + (A - 1) * cos_w0 - 2 * Real.sqrt A * alpha
    apply_filter prim [b0 / a0, b1 / a0, b2 / a0] [1, a1 / a0, a2 / a0] samples

/-- `_high_shelf_filter` (spectral.py lines 132-170): no-op at or above
Nyquist, else the RBJ high-shelf biquad designed in the source. -/
noncomputable def high_shelf_filter (prim : FilterPrimitives)
    (samples : SampleArray) (sr : ℕ) (cutoff gain_db : ℝ) : SampleArray :=
  let nyquist := (sr : ℝ) / 2
  if cutoff ≥ nyquist then samples
  else
    let A := (10 : ℝ) ^ (gain_db / 40)
    let w0 := 2 * Real.pi * cutoff / (sr : ℝ)
    let cos_w0 := Real.cos w0
    let sin_w0 := Real.sin w0
    let alpha := sin_w0 / 2 * Real.sqrt 2
    let b0 := A * ((A + 1) + (A - 1) * cos_w0 + 2 * Real.sqrt A * alpha)
    let b1 := -2 * A * ((A - 1) + (A + 1) * cos_w0)
    let b2 := A * ((A + 1) + (A - 1) * cos_w0 - 2 * Real.sqrt A * alpha)
    let a0 := (A + 1) - (A - 1) * cos_w0 + 2 * Real.sqrt A * alpha
    let a1 := 2 * ((A - 1) - (A + 1) * cos_w0)
    let a2 := (A + 1) - (A - 1) * cos_w0 - 2 * Real.sqrt A * alpha
    apply_filter prim [b0 / a0, b1 / a0, b2 / a0] [1, a1 / a0, a2 / a0] samples

/-- `_peak_filter` (spectral.py lines 173-213): no-op when the center
frequency is at or above Nyquist, else the RBJ peaking biquad designed in
the source. -/
noncomputable def peak_filter (prim : FilterPrimitives)
    (samples : SampleArray) (sr : ℕ) (center q gain_db : ℝ) : SampleArray :=
  let nyquist := (sr : ℝ) / 2
  if center ≥ nyquist then samples
  else
    let A := (10 : ℝ) ^ (gain_db / 40)
    let w0 := 2 * Real.pi * center / (sr : ℝ)
    let cos_w0 := Real.cos w0
    let sin_w0 := Real.sin w0
    let alpha := sin_w0 / (2 * q)
    let b0 := 1 + alpha * A
    let b1 := -2 * cos_w0
    let b2 := 1 - alpha * A
    let a0 := 1 + alpha / A
    let a1 := -2 * cos_w0
    let a2 := 1 - alpha / A
    apply_filter prim [b0 / a0, b1 / a0, b2 / a0] [1, a1 / a0, a2 / a0] samples

/- ===================== src/services/analyzer.py ===================== -/

/-- `np.mean` of a list. -/
noncomputable def listMean (xs : List ℝ) : ℝ := xs.sum / xs.length

/-- `librosa.util.frame` (analyzer.py line 71): frames of `frame_length`
samples advancing by `hop_length`.  Meaningful when the input has at
least `frame_length` samples and `hop_length ≥ 1` (librosa raises
otherwise). -/
def frameList (samples : List ℝ) (frame_length hop_length : ℕ) :
    List (List ℝ) :=
  (List.range ((samples.length - frame_length) / hop_length + 1)).map
    (fun i => (samples.drop (i * hop_length)).take frame_length)

/-- Per-frame RMS floored at 1e-10 (analyzer.py lines 66-75): 50 ms frames
(`int(sr * 0.05)`, i.e. `sr / 20` truncated) with half-overlap hop. -/
noncomputable def frameRms (samples : List ℝ) (sr : ℕ) : List ℝ :=
  (frameList samples (sr / 20) (sr / 20 / 2)).map
    (fun f => max (listRms f) 1e-10)

/-- `estimate_snr` (analyzer.py lines 53-100): 0 when fewer than 10 frames
lie above the 1e-3 silence floor; 60 when the noise floor is below 1e-10;
otherwise `20*log10(signal/noise)` clipped to [0, 60], with signal/noise
the mean RMS of the loudest/quietest `max 1 (n/10)` non-silent frames. -/
noncomputable def estimate_snr (samples : List ℝ) (sr : ℕ) : ℝ :=
  let rms_per_frame := frameRms samples sr
  let sorted_rms := rms_per_frame.insertionSort (· ≤ ·)
  let non_silent_count :=
    (rms_per_frame.filter (fun x => decide ((1e-3 : ℝ) < x))).length
  if non_silent_count < 10 then 0
  else
    let non_silent_rms :=
      sorted_rms.filter (fun x => decide ((1e-3 : ℝ) < x))
    let n_frames := non_silent_rms.length
    let top_10_percent := max 1 (n_frames / 10)
    let bottom_10_percent := max 1 (n_frames / 10)
    let signal_rms := listMean (non_silent_rms.drop (n_frames - top_10_percent))
    let noise_rms := listMean (non_silent_rms.take bottom_10_percent)
    if noise_rms < 1e-10 then 60
    else clipReal (20 * Real.logb 10 (signal_rms / noise_rms)) 0 60

/-- Modelled from the claim wording for C5: 0 when fewer than 10 frames
have RMS above the 1e-3 silence floor, 60 when the noise floor (mean RMS
of the quietest 10% of non-silent frames, at least 1 frame) is numerically
zero, otherwise `20*log10(signal_rms/noise_rms)` clamped to [0, 60], with
`signal_rms` the mean RMS of the loudest 10% of non-silent frames. -/
noncomputable def claimSnr (samples : List ℝ) (sr : ℕ) : ℝ :=
  let rms_per_frame := frameRms samples sr
  let non_silent :=
    (rms_per_frame.insertionSort (· ≤ ·)).filter
      (fun x => decide ((1e-3 : ℝ) < x))
  if (rms_per_frame.filter (fun x => decide ((1e-3 : ℝ) < x))).length < 10 then 0
  else
    let n := non_silent.length
    let signal_rms := listMean (non_silent.drop (n - max 1 (n / 10)))
    let noise_rms := listMean (non_silent.take (max 1 (n / 10)))
    if noise_rms = 0 then 60
    else clipReal (20 * Real.logb 10 (signal_rms / noise_rms)) 0 60

/- ===================== Theorems: C2 and C6 ===================== -/

/-- C2: for every `QualityMetrics` value and every user base config,
`select_config` chooses the minimal preset when `quality_score ≥ 0.8`,
else the light preset when `quality_score ≥ 0.7`, else the aggressive
preset when `quality_score < 0.5` or `snr_db < 20`, else the standard
preset, and then reapplies the user overrides: a non-default loudness
target replaces the preset target, an AI-disable forces AI off, and a
`preserve_dynamics` request forces preservation on (never off). -/
theorem select_config_matches_claim (m : QualityMetrics)
    (u : EnhancementConfig) :
    select_config m u = claimOverrides u (claimPreset m) := by
  unfold select_config claimOverrides claimPreset
  unfold QualityMetrics.is_excellent_quality QualityMetrics.is_high_quality
    QualityMetrics.needs_ai_enhancement
  rfl

/-- C6: constructing an `EnhancementConfig` succeeds exactly when
`noise_reduction_strength ∈ [0,1]` and `target_loudness_lufs ∈ [-60,0]`
(construction outside these ranges fails), and every successfully
constructed config satisfies both range constraints. -/
theorem mkEnhancementConfig_valid (nrs : ℚ) (eq dyn ai pd : Bool)
    (lufs : ℚ) (ql : QualityLevel) :
    ((∃ c, mkEnhancementConfig nrs eq dyn ai pd lufs ql = Except.ok c) ↔
      (0 ≤ nrs ∧ nrs ≤ 1) ∧ (-60 ≤ lufs ∧ lufs ≤ 0)) ∧
    (∀ c, mkEnhancementConfig nrs eq dyn ai pd lufs ql = Except.ok c →
      (0 ≤ c.noise_reduction_strength ∧ c.noise_reduction_strength ≤ 1) ∧
        (-60 ≤ c.target_loudness_lufs ∧ c.target_loudness_lufs ≤ 0)) := by
  unfold mkEnhancementConfig
  by_cases h1 : (0 ≤ nrs ∧ nrs ≤ 1)
  · by_cases h2 : (-60 ≤ lufs ∧ lufs ≤ 0)
    · constructor
      · simp [h1, h2]
      · intro c h
        rw [if_neg (not_not_intro h1), if_neg (not_not_intro h2)] at h
        simp only [Except.ok.injEq] at h
        rw [← h]
        exact ⟨h1, h2⟩
    · constructor
      · simp [h1, h2]
      · intro c h
        rw [if_neg (not_not_intro h1), if_pos h2] at h
        exact absurd h (by simp)
  · constructor
    · simp [h1]
    · intro c h
      rw [if_pos h1] at h
      exact absurd h (by simp)

/-- Witness for C6: a concrete successful construction lies inside both
ranges. -/
theorem mkEnhancementConfig_valid_witness :
    (0 ≤ (⟨mkRat 1 2, true, true, true, true, -14, QualityLevel.auto⟩ :
        EnhancementConfig).noise_reduction_strength ∧
      (⟨mkRat 1 2, true, true, true, true, -14, QualityLevel.auto⟩ :
        EnhancementConfig).noise_reduction_strength ≤ 1) ∧
    (-60 ≤ (⟨mkRat 1 2, true, true, true, true, -14, QualityLevel.auto⟩ :
        EnhancementConfig).target_loudness_lufs ∧
      (⟨mkRat 1 2, true, true, true, true, -14, QualityLevel.auto⟩ :
        EnhancementConfig).target_loudness_lufs ≤ 0) :=
  (mkEnhancementConfig_valid (mkRat 1 2) true true true true (-14)
    QualityLevel.auto).2 _ (by rfl)

lemma noiseStage_ok_name {α : Type} {env : PipelineEnv α} {af : AudioFile α}
    {cfg : EnhancementConfig} {m : QualityMetrics} {s s2 : α}
    {st : ProcessingStage}
    (h : noiseStage env af cfg m s = Except.ok (s2, st)) :
    st.name = "noise_reduction" := by
  unfold noiseStage at h
  split at h
  · dsimp only at h
    split at h
    · exact absurd h (by simp)
    · simp only [Except.ok.injEq, Prod.mk.injEq] at h
      rw [← h.2]
      rfl
  · simp only [Except.ok.injEq, Prod.mk.injEq] at h
    rw [← h.2]
    rfl

lemma eqStage_ok_name {α : Type} {env : PipelineEnv α}
    {cfg : EnhancementConfig} {sr : ℕ} {s s2 : α} {st : ProcessingStage}
    (h : eqStage env cfg sr s = Except.ok (s2, st)) :
    st.name = "spectral" := by
  unfold eqStage at h
  split at h
  · split at h
    · exact absurd h (by simp)
    · simp only [Except.ok.injEq, Prod.mk.injEq] at h
      rw [← h.2]
      rfl
  · simp only [Except.ok.injEq, Prod.mk.injEq] at h
    rw [← h.2]
    rfl

lemma dynamicsStage_ok_name {α : Type} {env : PipelineEnv α}
    {cfg : EnhancementConfig} {sr : ℕ} {s s2 : α} {st : ProcessingStage}
    (h : dynamicsStage env cfg sr s = Except.ok (s2, st)) :
    st.name = "dynamics" := by
  unfold dynamicsStage at h
  split at h
  · split at h
    · exact absurd h (by simp)
    · split at h
      · exact absurd h (by simp)
      · simp only [Except.ok.injEq, Prod.mk.injEq] at h
        rw [← h.2]
        rfl
  · simp only [Except.ok.injEq, Prod.mk.injEq] at h
    rw [← h.2]
    rfl

lemma noiseStage_error_src {α : Type} {env : PipelineEnv α} {af : AudioFile α}
    {cfg : EnhancementConfig} {m : QualityMetrics} {s : α} {e : String}
    (h : noiseStage env af cfg m s = Except.error e) :
    ∃ af2 q b, env.reduce_noise_with_fallback af2 q b = Except.error e := by
  unfold noiseStage at h
  split at h
  · dsimp only at h
    split at h
    · next heq =>
        simp only [Except.error.injEq] at h
        exact ⟨_, _, _, by rw [heq, h]⟩
    · exact absurd h (by simp)
  · exact absurd h (by simp)

lemma eqStage_error_src {α : Type} {env : PipelineEnv α}
    {cfg : EnhancementConfig} {sr : ℕ} {s : α} {e : String}
    (h : eqStage env cfg sr s = Except.error e) :
    ∃ s2 n c, env.apply_eq s2 n c = Except.error e := by
  unfold eqStage at h
  split at h
  · split at h
    · next heq =>
        simp only [Except.error.injEq] at h
        exact ⟨_, _, _, by rw [heq, h]⟩
    · exact absurd h (by simp)
  · exact absurd h (by simp)

lemma dynamicsStage_error_src {α : Type} {env : PipelineEnv α}
    {cfg : EnhancementConfig} {sr : ℕ} {s : α} {e : String}
    (h : dynamicsStage env cfg sr s = Except.error e) :
    (∃ s2 c, env.compress_dynamics s2 c = Except.error e) ∨
      (∃ s2 q n, env.normalize_loudness s2 q n = Except.error e) := by
  unfold dynamicsStage at h
  split at h
  · split at h
    · next heq =>
        simp only [Except.error.injEq] at h
        exact Or.inl ⟨_, _, by rw [heq, h]⟩
    · split at h
      · next heq =>
          simp only [Except.error.injEq] at h
          exact Or.inr ⟨_, _, _, by rw [heq, h]⟩
      · exact absurd h (by simp)
  · exact absurd h (by simp)

lemma finishRun_shape {α : Type} (env : PipelineEnv α) (a : AudioFile α)
    (m : QualityMetrics) (s4 : List ProcessingStage) (oa : AudioFile α)
    (p : Option String) :
    ((finishRun env a m s4 oa p).success = true →
        (finishRun env a m s4 oa p).processing_stages =
          s4 ++ [ProcessingStage.completed "validation" "quality_check",
                 ProcessingStage.completed "export" "soundfile"] ∧
        ∃ o, (finishRun env a m s4 oa p).output_file = some o ∧
          o.bit_depth = oa.bit_depth) ∧
    ((finishRun env a m s4 oa p).success = false →
        (finishRun env a m s4 oa p).output_file = none ∧
        (finishRun env a m s4 oa p).output_metrics = none ∧
        (finishRun env a m s4 oa p).input_metrics = some m ∧
        (∃ e, (finishRun env a m s4 oa p).error_message = some e ∧
          ((∃ af, env.analyze_quality af = Except.error e) ∨
            (∃ af pth, env.save_audio af pth = Except.error e))) ∧
        ((finishRun env a m s4 oa p).processing_stages = s4 ∨
          (finishRun env a m s4 oa p).processing_stages =
            s4 ++ [ProcessingStage.completed "validation" "quality_check"])) := by
  unfold finishRun
  cases hV : env.analyze_quality oa with
  | error e =>
      dsimp only
      exact ⟨fun hs => absurd hs (by simp [failRes]), fun _ =>
        ⟨rfl, rfl, rfl, ⟨e, rfl, Or.inl ⟨oa, hV⟩⟩, Or.inl rfl⟩⟩
  | ok om =>
      dsimp only
      cases hS : env.save_audio oa
          (match p with
           | none => env.generate_output_path a.path
           | some q => q) with
      | error e =>
          dsimp only
          exact ⟨fun hs => absurd hs (by simp [failRes]), fun _ =>
            ⟨rfl, rfl, rfl, ⟨e, rfl, Or.inr ⟨oa, _, hS⟩⟩, Or.inr rfl⟩⟩
      | ok u =>
          dsimp only
          exact ⟨fun _ => ⟨by simp, ⟨_, rfl, rfl⟩⟩, fun hs => absurd hs (by simp)⟩

lemma enhance_audio_analyze_ok {α : Type} (env : PipelineEnv α)
    (a : AudioFile α) (c : EnhancementConfig) (p : Option String)
    (h : (enhance_audio env a c p).success = true) :
    ∃ m, env.analyze_quality a = Except.ok m := by
  unfold enhance_audio at h
  cases hA : env.analyze_quality a with
  | error e => rw [hA] at h; simp [failRes] at h
  | ok m => exact ⟨m, rfl⟩

lemma enhance_audio_shape {α : Type} (env : PipelineEnv α) (a : AudioFile α)
    (c : EnhancementConfig) (p : Option String) (m : QualityMetrics)
    (hA : env.analyze_quality a = Except.ok m) :
    ((enhance_audio env a c p).success = true →
        stageNames (enhance_audio env a c p) = pipelinePhases ∧
        ∃ o, (enhance_audio env a c p).output_file = some o ∧
          o.bit_depth = max a.bit_depth 24) ∧
    ((enhance_audio env a c p).success = false →
        (enhance_audio env a c p).output_file = none ∧
        (enhance_audio env a c p).output_metrics = none ∧
        (enhance_audio env a c p).input_metrics = some m ∧
        (∃ e, (enhance_audio env a c p).error_message = some e ∧
          env.raises e) ∧
        stageNames (enhance_audio env a c p) <+: pipelinePhases ∧
        stageNames (enhance_audio env a c p) ≠ pipelinePhases) := by
  unfold enhance_audio
  rw [hA]
  dsimp only
  generalize (if c.quality_level = QualityLevel.auto then
      select_config m c else c) = cfg
  cases hN : noiseStage env a cfg m a.samples with
  | error e =>
      dsimp only
      refine ⟨fun hs => absurd hs (by simp [failRes]), fun _ =>
        ⟨rfl, rfl, rfl, ⟨e, rfl, Or.inr (Or.inl (noiseStage_error_src hN))⟩,
          ⟨["noise_reduction", "spectral", "dynamics", "validation", "export"],
            rfl⟩, by simp [stageNames, failRes, pipelinePhases]⟩⟩
  | ok pr2 =>
      obtain ⟨samples2, st2⟩ := pr2
      dsimp only
      cases hE : eqStage env cfg a.sample_rate samples2 with
      | error e =>
          dsimp only
          refine ⟨fun hs => absurd hs (by simp [failRes]), fun _ =>
            ⟨rfl, rfl, rfl, ⟨e, rfl,
              Or.inr (Or.inr (Or.inl (eqStage_error_src hE)))⟩, ?_, ?_⟩⟩
          · refine ⟨["spectral", "dynamics", "validation", "export"], ?_⟩
            simp [stageNames, failRes, pipelinePhases, ProcessingStage.completed,
              noiseStage_ok_name hN]
          · simp [stageNames, failRes, pipelinePhases]
      | ok pr3 =>
          obtain ⟨samples3, st3⟩ := pr3
          dsimp only
          cases hD : dynamicsStage env cfg a.sample_rate samples3 with
          | error e =>
              dsimp only
              refine ⟨fun hs => absurd hs (by simp [failRes]), fun _ =>
                ⟨rfl, rfl, rfl, ⟨e, rfl, ?_⟩, ?_, ?_⟩⟩
              · rcases dynamicsStage_error_src hD with hc | hn
                · exact Or.inr (Or.inr (Or.inr (Or.inl hc)))
                · exact Or.inr (Or.inr (Or.inr (Or.inr (Or.inl hn))))
              · refine ⟨["dynamics", "validation", "export"], ?_⟩
                simp [stageNames, failRes, pipelinePhases,
                  ProcessingStage.completed, noiseStage_ok_name hN,
                  eqStage_ok_name hE]
              · simp [stageNames, failRes, pipelinePhases]
          | ok pr4 =>
              obtain ⟨samples4, st4⟩ := pr4
              dsimp only
              have hF := finishRun_shape env a m
                ([ProcessingStage.completed "analysis" "librosa"] ++ [st2]
                  ++ [st3] ++ [st4])
                { path := a.path, format := "wav",
                  sample_rate := a.sample_rate,
                  bit_depth := max a.bit_depth 24, channels := a.channels,
                  duration := (env.sampleLen samples4 : ℚ) / (a.sample_rate : ℚ),
                  samples := samples4 } p
              refine ⟨fun hs => ?_, fun hs => ?_⟩
              · obtain ⟨hstages, o, ho, hbd⟩ := hF.1 hs
                refine ⟨?_, o, ho, hbd⟩
                simp only [stageNames, hstages]
                simp [pipelinePhases, ProcessingStage.completed,
                  noiseStage_ok_name hN, eqStage_ok_name hE,
                  dynamicsStage_ok_name hD]
              · obtain ⟨h1, h2, h3, ⟨e, he, hsrc⟩, h5⟩ := hF.2 hs
                refine ⟨h1, h2, h3, ⟨e, he, ?_⟩, ?_, ?_⟩
                · rcases hsrc with ha | hs2
                  · exact Or.inl ha
                  · exact Or.inr (Or.inr (Or.inr (Or.inr (Or.inr hs2))))
                · rcases h5 with h5 | h5 <;>
                    simp only [stageNames, h5] <;>
                    [refine ⟨["validation", "export"], ?_⟩;
                     refine ⟨["export"], ?_⟩] <;>
                  simp [pipelinePhases, ProcessingStage.completed,
                    noiseStage_ok_name hN, eqStage_ok_name hE,
                    dynamicsStage_ok_name hD]
                · rcases h5 with h5 | h5 <;>
                    simp only [stageNames, h5] <;>
                    simp [pipelinePhases, ProcessingStage.completed]

/- ===================== Theorems: C1, C4, C8 ===================== -/

/-- C1, counterexample: on a successful auto-quality run the stage list
contains no "select" record at all, contradicting the claim that a select
record is present exactly when the starting quality level is auto. -/
theorem enhance_audio_no_select_stage_cex :
    demoConfigAuto.quality_level = QualityLevel.auto ∧
    (enhance_audio okEnv demoAudio demoConfigAuto none).success = true ∧
    ¬ ("select" ∈ stageNames (enhance_audio okEnv demoAudio demoConfigAuto none)) := by
  refine ⟨rfl, by decide, by decide⟩

/-- C1 (amended): for every successful run of `enhance_audio`, the stage
list contains exactly one `ProcessingStage` record per pipeline phase —
analysis, noise_reduction, spectral, dynamics, validation, export, in that
order, whether each ran or was skipped; configuration selection appends no
record, so no "select" record ever appears, even when the starting quality
level is auto. -/
theorem enhance_audio_success_stage_list {α : Type} (env : PipelineEnv α)
    (a : AudioFile α) (c : EnhancementConfig) (p : Option String)
    (h : (enhance_audio env a c p).success = true) :
    stageNames (enhance_audio env a c p) = pipelinePhases := by
  obtain ⟨m, hA⟩ := enhance_audio_analyze_ok env a c p h
  exact ((enhance_audio_shape env a c p m hA).1 h).1

/-- Witness for C1 (amended) at a concrete successful auto-quality run. -/
theorem enhance_audio_success_stage_list_witness :
    stageNames (enhance_audio okEnv demoAudio demoConfigAuto none) =
      pipelinePhases :=
  enhance_audio_success_stage_list okEnv demoAudio demoConfigAuto none
    (by decide)

/-- C4: if input analysis completed (`analyze_quality` returned metrics)
and the run failed, the result has `success = false`, no output file, no
output metrics, the input metrics still present, a non-empty error message
(given that the collaborators raise non-empty messages, as the
`EnhancerError` hierarchy does), and a stage list that is a proper prefix
of the full phase list — exactly the records appended before the fault. -/
theorem enhance_audio_failure_shape {α : Type} (env : PipelineEnv α)
    (a : AudioFile α) (c : EnhancementConfig) (p : Option String)
    (m : QualityMetrics) (hA : env.analyze_quality a = Except.ok m)
    (hne : env.errorsNonempty)
    (h : (enhance_audio env a c p).success = false) :
    (enhance_audio env a c p).output_file = none ∧
    (enhance_audio env a c p).output_metrics = none ∧
    (enhance_audio env a c p).input_metrics = some m ∧
    (∃ msg, (enhance_audio env a c p).error_message = some msg ∧ msg ≠ "") ∧
    stageNames (enhance_audio env a c p) <+: pipelinePhases ∧
    stageNames (enhance_audio env a c p) ≠ pipelinePhases := by
  obtain ⟨h1, h2, h3, ⟨e, he, hsrc⟩, h5, h6⟩ :=
    (enhance_audio_shape env a c p m hA).2 h
  exact ⟨h1, h2, h3, ⟨e, he, hne e hsrc⟩, h5, h6⟩

/-- Witness for C4 at a concrete run whose EQ stage raises. -/
theorem enhance_audio_failure_shape_witness :
    (enhance_audio failEnvEq demoAudio EnhancementConfig.standard none).output_file = none ∧
    (enhance_audio failEnvEq demoAudio EnhancementConfig.standard none).output_metrics = none ∧
    (enhance_audio failEnvEq demoAudio EnhancementConfig.standard none).input_metrics = some demoMetrics ∧
    (∃ msg, (enhance_audio failEnvEq demoAudio EnhancementConfig.standard none).error_message = some msg ∧ msg ≠ "") ∧
    stageNames (enhance_audio failEnvEq demoAudio EnhancementConfig.standard none) <+: pipelinePhases ∧
    stageNames (enhance_audio failEnvEq demoAudio EnhancementConfig.standard none) ≠ pipelinePhases := by
  have hne : failEnvEq.errorsNonempty := by
    rintro e hr
    rcases hr with ⟨af, h⟩ | ⟨af, q, b, h⟩ | ⟨s, n, c1, h⟩ | ⟨s, c1, h⟩ |
      ⟨s, q, n, h⟩ | ⟨af, pth, h⟩
    · simp [failEnvEq, okEnv] at h
    · simp [failEnvEq, okEnv] at h
    · simp only [failEnvEq, okEnv, Except.error.injEq] at h
      rw [← h]
      decide
    · simp [failEnvEq, okEnv] at h
    · simp [failEnvEq, okEnv] at h
    · simp [failEnvEq, okEnv] at h
  exact enhance_audio_failure_shape failEnvEq demoAudio
    EnhancementConfig.standard none demoMetrics rfl hne (by decide)

/-- C8: every successful run produces an output descriptor whose bit depth
is `max (input bit depth) 24`: at least 24 and never below the input bit
depth. -/
theorem enhance_audio_output_bit_depth {α : Type} (env : PipelineEnv α)
    (a : AudioFile α) (c : EnhancementConfig) (p : Option String)
    (h : (enhance_audio env a c p).success = true) :
    ∃ o, (enhance_audio env a c p).output_file = some o ∧
      o.bit_depth = max a.bit_depth 24 ∧ 24 ≤ o.bit_depth ∧
      a.bit_depth ≤ o.bit_depth := by
  obtain ⟨m, hA⟩ := enhance_audio_analyze_ok env a c p h
  obtain ⟨o, ho, hbd⟩ := ((enhance_audio_shape env a c p m hA).1 h).2
  refine ⟨o, ho, hbd, ?_, ?_⟩
  · rw [hbd]; exact Nat.le_max_right _ _
  · rw [hbd]; exact Nat.le_max_left _ _

/-- Witness for C8 at a concrete successful run with a 16-bit input. -/
theorem enhance_audio_output_bit_depth_witness :
    ∃ o, (enhance_audio okEnv demoAudio EnhancementConfig.standard none).output_file = some o ∧
      o.bit_depth = max demoAudio.bit_depth 24 ∧ 24 ≤ o.bit_depth ∧
      demoAudio.bit_depth ≤ o.bit_depth :=
  enhance_audio_output_bit_depth okEnv demoAudio EnhancementConfig.standard
    none (by decide)

/- ===================== Theorems: C3, C7, C10 ===================== -/

/-- C3, counterexample: with threshold 0 dB, ratio 2 and knee 2 dB, the
gain reduction inside the knee is not a quadratic function of the dB
excess over `threshold - knee/2` (the code makes it cubic). -/
theorem gainOutputDb_knee_not_quadratic_cex :
    ¬ ∃ a b c : ℝ, ∀ L : ℝ, (0 : ℝ) - 2 / 2 < L → L < (0 : ℝ) + 2 / 2 →
      gainOutputDb L 0 2 2 - L =
        a * (L - ((0 : ℝ) - 2 / 2)) ^ 2 + b * (L - ((0 : ℝ) - 2 / 2)) + c := by
  rintro ⟨a, b, c, h⟩
  have h1 := h (-3/4) (by norm_num) (by norm_num)
  have h2 := h (-1/2) (by norm_num) (by norm_num)
  have h3 := h (-1/4) (by norm_num) (by norm_num)
  have h4 := h 0 (by norm_num) (by norm_num)
  norm_num [gainOutputDb] at h1 h2 h3 h4
  linarith

/-- C3 (amended): the compressor's dB gain curve leaves the level
unchanged at or below `threshold - knee/2`, maps it to
`threshold + (level - threshold)/ratio` at or above `threshold + knee/2`,
and in between applies a cubic blend: the gain reduction in dB equals
`(1/ratio - 1) / (2*knee^2)` times the cube of the dB excess over
`threshold - knee/2`. -/
theorem gainOutputDb_piecewise (L t r k : ℝ) (hk : 0 ≤ k) :
    (L ≤ t - k / 2 → gainOutputDb L t r k = L) ∧
    (t + k / 2 ≤ L → gainOutputDb L t r k = t + (L - t) / r) ∧
    (t - k / 2 < L → L < t + k / 2 →
      gainOutputDb L t r k - L =
        (1 / r - 1) / (2 * k ^ 2) * (L - (t - k / 2)) ^ 3) := by
  refine ⟨fun h1 => ?_, fun h2 => ?_, fun h1 h2 => ?_⟩
  · unfold gainOutputDb
    rw [if_pos h1]
  · unfold gainOutputDb
    by_cases h1 : L ≤ t - k / 2
    · have hk0 : k = 0 := le_antisymm (by linarith) hk
      have hL : L = t := by rw [hk0] at h1 h2; linarith
      rw [if_pos h1, hL]
      simp
    · rw [if_neg h1, if_pos (by exact h2)]
  · have hkpos : 0 < k := by linarith
    unfold gainOutputDb
    rw [if_neg (by linarith), if_neg (by simp only [ge_iff_le, not_le]; linarith)]
    have hk0 : k ≠ 0 := ne_of_gt hkpos
    field_simp
    ring

/-- Witness for C3 (amended) at threshold 0 dB, ratio 2, knee 2 dB,
level -3/4 dB (inside the knee). -/
theorem gainOutputDb_piecewise_witness :
    ((-3/4 : ℝ) ≤ 0 - 2 / 2 → gainOutputDb (-3/4) 0 2 2 = -3/4) ∧
    ((0 : ℝ) + 2 / 2 ≤ -3/4 →
      gainOutputDb (-3/4) 0 2 2 = 0 + (-3/4 - 0) / 2) ∧
    ((0 : ℝ) - 2 / 2 < -3/4 → (-3/4 : ℝ) < 0 + 2 / 2 →
      gainOutputDb (-3/4) 0 2 2 - (-3/4) =
        (1 / 2 - 1) / (2 * 2 ^ 2) * (-3/4 - (0 - 2 / 2)) ^ 3) :=
  gainOutputDb_piecewise (-3/4) 0 2 2 (by norm_num)

/-- C7: `normalize_loudness` returns a silent buffer (mono-mix RMS below
1e-10) unchanged, for every target loudness and sample rate. -/
theorem normalize_loudness_silent_id (samples : SampleArray)
    (target_lufs : ℝ) (sr : ℕ)
    (h : listRms (monoMix samples) < 1e-10) :
    normalize_loudness samples target_lufs sr = samples := by
  unfold normalize_loudness estimate_loudness_lufs
  rw [if_pos h]

/-- Witness for C7: the one-sample zero buffer is silent and is returned
unchanged. -/
theorem normalize_loudness_silent_id_witness :
    normalize_loudness (SampleArray.mono [0]) (-14) 44100 =
      SampleArray.mono [0] :=
  normalize_loudness_silent_id (SampleArray.mono [0]) (-14) 44100 (by
    unfold listRms monoMix
    norm_num [Real.sqrt_zero])

lemma real_tanh_lt_one (x : ℝ) : Real.tanh x < 1 := by
  rw [Real.tanh_eq_sinh_div_cosh, div_lt_one (Real.cosh_pos x)]
  exact Real.sinh_lt_cosh x

lemma neg_one_lt_real_tanh (x : ℝ) : -1 < Real.tanh x := by
  rw [Real.tanh_eq_sinh_div_cosh, lt_div_iff₀ (Real.cosh_pos x)]
  have h := Real.sinh_lt_cosh (-x)
  simp only [Real.sinh_neg, Real.cosh_neg] at h
  linarith

lemma abs_soft_clip_sample_lt_one (t x : ℝ) (ht0 : 0 ≤ t) (ht1 : t < 1) :
    |soft_clip_sample t x| < 1 := by
  unfold soft_clip_sample
  by_cases h : |x| ≤ t
  · rw [if_pos h]
    exact lt_of_le_of_lt h ht1
  · rw [if_neg h]
    have hxne : x ≠ 0 := by
      intro h0
      exact h (by rw [h0]; simpa using ht0)
    have h1t : (0 : ℝ) < 1 - t := by linarith
    set v := t + (1 - t) * Real.tanh ((|x| - t) / (1 - t)) with hv
    have hvlt : v < 1 := by
      have hm := mul_lt_mul_of_pos_left
        (real_tanh_lt_one ((|x| - t) / (1 - t))) h1t
      rw [hv]
      linarith
    have hvgt : -1 < v := by
      have hm := mul_lt_mul_of_pos_left
        (neg_one_lt_real_tanh ((|x| - t) / (1 - t))) h1t
      rw [hv]
      linarith
    have habs : |Real.sign x * v| = |v| := by
      rcases lt_trichotomy x 0 with hx | hx | hx
      · rw [Real.sign_of_neg hx]
        rw [abs_mul]
        norm_num
      · exact absurd hx hxne
      · rw [Real.sign_of_pos hx]
        rw [abs_mul]
        norm_num
    rw [habs, abs_lt]
    exact ⟨hvgt, hvlt⟩

lemma mem_mapSamples_toFlatList (f : ℝ → ℝ) (s : SampleArray) (x : ℝ)
    (hx : x ∈ (mapSamples f s).toFlatList) : ∃ y, x = f y := by
  cases s with
  | mono xs =>
      simp only [mapSamples, SampleArray.toFlatList, List.mem_map] at hx
      obtain ⟨y, _, hy⟩ := hx
      exact ⟨y, hy.symm⟩
  | multi rows =>
      simp only [mapSamples, SampleArray.toFlatList, List.mem_flatten,
        List.mem_map] at hx
      obtain ⟨L, ⟨row, _, hrow⟩, hxL⟩ := hx
      rw [← hrow] at hxL
      simp only [List.mem_map] at hxL
      obtain ⟨y, _, hy⟩ := hxL
      exact ⟨y, hy.symm⟩

/-- C10: for a non-silent buffer (mono-mix RMS at least 1e-10) every
output sample of `normalize_loudness` has absolute value strictly below
1.0, and the soft limiter passes any post-gain sample of magnitude at most
0.95 through unchanged. -/
theorem normalize_loudness_output_bounded (samples : SampleArray)
    (target_lufs : ℝ) (sr : ℕ)
    (h : ¬ listRms (monoMix samples) < 1e-10) :
    (∀ x ∈ (normalize_loudness samples target_lufs sr).toFlatList, |x| < 1) ∧
    (∀ y : ℝ, |y| ≤ 95 / 100 → soft_clip_sample (95 / 100) y = y) := by
  constructor
  · intro x hx
    unfold normalize_loudness estimate_loudness_lufs at hx
    rw [if_neg h] at hx
    dsimp only at hx
    unfold soft_clip at hx
    obtain ⟨y, hy⟩ := mem_mapSamples_toFlatList _ _ _ hx
    rw [hy]
    exact abs_soft_clip_sample_lt_one _ _ (by norm_num) (by norm_num)
  · intro y hy
    unfold soft_clip_sample
    rw [if_pos hy]

/-- Witness for C10: a concrete non-silent mono buffer. -/
theorem normalize_loudness_output_bounded_witness :
    (∀ x ∈ (normalize_loudness (SampleArray.mono [1]) (-14) 44100).toFlatList,
      |x| < 1) ∧
    (∀ y : ℝ, |y| ≤ 95 / 100 → soft_clip_sample (95 / 100) y = y) :=
  normalize_loudness_output_bounded (SampleArray.mono [1]) (-14) 44100 (by
    unfold listRms monoMix
    norm_num [Real.sqrt_one])

/- ===================== Theorem: C9 ===================== -/

/-- C9: each filter of the spectral filter bank whose cutoff (or center)
frequency is at or above the Nyquist frequency `sr/2` returns its input
unchanged instead of raising. -/
theorem filters_nyquist_noop (prim : FilterPrimitives)
    (samples : SampleArray) (sr : ℕ) (cutoff q gain_db : ℝ)
    (h : (sr : ℝ) / 2 ≤ cutoff) :
    highpass_filter prim samples sr cutoff = samples ∧
    low_shelf_filter prim samples sr cutoff gain_db = samples ∧
    high_shelf_filter prim samples sr cutoff gain_db = samples ∧
    peak_filter prim samples sr cutoff q gain_db = samples := by
  refine ⟨?_, ?_, ?_, ?_⟩
  · unfold highpass_filter
    dsimp only
    rw [if_pos h]
  · unfold low_shelf_filter
    dsimp only
    rw [if_pos h]
  · unfold high_shelf_filter
    dsimp only
    rw [if_pos h]
  · unfold peak_filter
    dsimp only
    rw [if_pos h]

/-- Witness for C9: cutoff 4000 Hz at sample rate 8000 Hz (Nyquist). -/
theorem filters_nyquist_noop_witness :
    highpass_filter ⟨fun _ _ xs => xs, fun _ _ => ([], [])⟩
        (SampleArray.mono [0]) 8000 4000 = SampleArray.mono [0] ∧
    low_shelf_filter ⟨fun _ _ xs => xs, fun _ _ => ([], [])⟩
        (SampleArray.mono [0]) 8000 4000 2 = SampleArray.mono [0] ∧
    high_shelf_filter ⟨fun _ _ xs => xs, fun _ _ => ([], [])⟩
        (SampleArray.mono [0]) 8000 4000 2 = SampleArray.mono [0] ∧
    peak_filter ⟨fun _ _ xs => xs, fun _ _ => ([], [])⟩
        (SampleArray.mono [0]) 8000 4000 1 2 = SampleArray.mono [0] :=
  filters_nyquist_noop ⟨fun _ _ xs => xs, fun _ _ => ([], [])⟩
    (SampleArray.mono [0]) 8000 4000 1 2 (by norm_num)

lemma list_sum_gt {c : ℝ} : ∀ {l : List ℝ}, l ≠ [] → (∀ x ∈ l, c < x) →
    c * l.length < l.sum := by
  intro l
  induction l with
  | nil => intro h; exact absurd rfl h
  | cons x t ih =>
      intro _ hmem
      cases t with
      | nil => simpa using hmem x (by simp)
      | cons y u =>
          have hx : c < x := hmem x (by simp)
          have ht : c * (y :: u).length < (y :: u).sum :=
            ih (by simp) (fun z hz => hmem z (by simp [hz]))
          simp only [List.sum_cons, List.length_cons] at ht ⊢
          push_cast
          push_cast at ht
          nlinarith

lemma listMean_gt {c : ℝ} {l : List ℝ} (hl : l ≠ [])
    (h : ∀ x ∈ l, c < x) : c < listMean l := by
  have hlen : 0 < (l.length : ℝ) := by
    have := List.length_pos.mpr hl
    exact_mod_cast this
  rw [listMean, lt_div_iff₀ hlen]
  exact list_sum_gt hl h

/-- C5: `estimate_snr` behaves exactly as the claim describes: 0 when
fewer than 10 frames exceed the 1e-3 silence floor; 60 when the noise
floor is numerically zero; otherwise `20*log10(signal/noise)` clamped to
[0, 60] — the code's `< 1e-10` test and the claim's `= 0` test agree
because every non-silent frame RMS exceeds 1e-3, making the noise floor
strictly positive. -/
theorem estimate_snr_matches_claim (samples : List ℝ) (sr : ℕ) :
    estimate_snr samples sr = claimSnr samples sr := by
  unfold estimate_snr claimSnr
  by_cases hc :
      ((frameRms samples sr).filter (fun x => decide ((1e-3 : ℝ) < x))).length < 10
  · rw [if_pos hc, if_pos hc]
  · rw [if_neg hc, if_neg hc]
    dsimp only
    set ns := ((frameRms samples sr).insertionSort (· ≤ ·)).filter
      (fun x => decide ((1e-3 : ℝ) < x)) with hns
    have hlen : ns.length =
        ((frameRms samples sr).filter (fun x => decide ((1e-3 : ℝ) < x))).length :=
      (((List.perm_insertionSort (· ≤ ·) (frameRms samples sr))).filter _).length_eq
    have h10 : 10 ≤ ns.length := by
      rw [hlen]
      omega
    have htake_pos : 0 < (ns.take (max 1 (ns.length / 10))).length := by
      rw [List.length_take]
      omega
    have htake_ne : ns.take (max 1 (ns.length / 10)) ≠ [] :=
      List.ne_nil_of_length_pos htake_pos
    have hmem : ∀ x ∈ ns.take (max 1 (ns.length / 10)), (1e-3 : ℝ) < x := by
      intro x hx
      have hx2 := List.mem_of_mem_take hx
      rw [hns] at hx2
      have hd := List.of_mem_filter hx2
      simpa using hd
    have hnoise : (1e-3 : ℝ) < listMean (ns.take (max 1 (ns.length / 10))) :=
      listMean_gt htake_ne hmem
    rw [if_neg (not_lt.mpr (le_of_lt (lt_trans (by norm_num) hnoise))),
      if_neg (ne_of_gt (lt_trans (by norm_num) hnoise))]

end NzrAudio
